import Mathlib

/-!
Verification of `quart_prometheus_logger` (sparkmeter/quart-prometheus-logger).

The Python module instruments a Quart application's request/response cycle
with Prometheus counters and histograms.  This file is a shallow embedding of
its core: the bucket builder, the collector set held by `PrometheusRegistry`,
the request-lifecycle hooks (`start_request`, `end_request`,
`abort_with_error`) and the label-strategy mutation (`custom_route_labeler`).

Modelling choices:
- Python ints are `Int` (or `Nat` where the source only ever sees naturals,
  such as HTTP status codes and content lengths).
- A raised exception is `Option.none` (so `linear_bucket`, which calls
  Python `range`, returns `none` exactly when `range` raises `ValueError`).
- Wall-clock instants and observed metric samples are rationals.
- A metric instrument's accumulated state is its per-label-combination
  counter value and its per-label-combination list of observed samples
  (most recent first).
- The process-wide `prometheus_client.REGISTRY` is modelled as the list of
  collector names currently registered in it.
-/

/-- Number of elements of Python `range(start, stop, step)` for `step ≠ 0`
(CPython's computation: `(stop - start + step - 1) // step` for positive
step, `(start - stop - step - 1) // (-step)` for negative step, clamped
at zero). -/
def pyRangeLen (start stop step : Int) : Nat :=
  if 0 < step then (stop - start + step - 1).toNat / step.toNat
  else (start - stop - step - 1).toNat / (-step).toNat

/-- Python `range(start, stop, step)` as a list.  `none` models the
`ValueError` CPython raises when `step` is zero; otherwise the elements are
`start + i * step` for `i < pyRangeLen start stop step`. -/
def pyRange (start stop step : Int) : Option (List Int) :=
  if step = 0 then none
  else some ((List.range (pyRangeLen start stop step)).map
    (fun i : Nat => start + step * (i : Int)))

/-- `linear_bucket(start, width, count)` from the source:
`list(range(start, start + width * count, width))`. -/
def linear_bucket (start width count : Int) : Option (List Int) :=
  pyRange start (start + width * count) width

/-- `RESPONSE_BUCKETS`: the four concatenated linear tiers used for the
response-size histogram.  Each `linear_bucket` call here has nonzero width,
so the `getD` default is never taken. -/
def RESPONSE_BUCKETS : List Int :=
  (linear_bucket 100 100 5).getD [] ++ (linear_bucket 1000 1000 5).getD [] ++
    (linear_bucket 10000 10000 5).getD [] ++ (linear_bucket 1000000 10000 5).getD []

/-- `REQUEST_BUCKETS`: the four concatenated linear tiers used for the
request-size histogram (textually identical to `RESPONSE_BUCKETS` in the
source). -/
def REQUEST_BUCKETS : List Int :=
  (linear_bucket 100 100 5).getD [] ++ (linear_bucket 1000 1000 5).getD [] ++
    (linear_bucket 10000 10000 5).getD [] ++ (linear_bucket 1000000 10000 5).getD []

theorem pyRangeLen_mul (s w c : Int) (hw : w ≠ 0) (hc : 0 ≤ c) :
    pyRangeLen s (s + w * c) w = c.toNat := by
  have key : ∀ v : Int, 0 < v → (v * c + v - 1).toNat / v.toNat = c.toNat := by
    intro v hv
    obtain ⟨vn, rfl⟩ : ∃ n : Nat, v = (n : Int) := ⟨v.toNat, (Int.toNat_of_nonneg hv.le).symm⟩
    obtain ⟨cn, rfl⟩ : ∃ n : Nat, c = (n : Int) := ⟨c.toNat, (Int.toNat_of_nonneg hc).symm⟩
    have hv1 : 1 ≤ vn := by exact_mod_cast hv
    have hcast : ((vn : Int) * (cn : Int) + (vn : Int) - 1).toNat = vn * cn + (vn - 1) := by
      have : (vn : Int) * (cn : Int) = ((vn * cn : Nat) : Int) := by push_cast; ring
      rw [this]
      omega
    rw [hcast, Int.toNat_natCast, Int.toNat_natCast]
    rw [Nat.mul_comm vn cn, Nat.add_comm, Nat.add_mul_div_right _ _ (by omega : 0 < vn)]
    rw [Nat.div_eq_of_lt (by omega), Nat.zero_add]
  unfold pyRangeLen
  rcases lt_or_gt_of_ne hw with hneg | hpos
  · rw [if_neg (by omega)]
    have h1 : s - (s + w * c) - w - 1 = (-w) * c + (-w) - 1 := by ring
    rw [h1]
    exact key (-w) (by omega)
  · rw [if_pos hpos]
    have h1 : s + w * c - s + w - 1 = w * c + w - 1 := by ring
    rw [h1]
    exact key w hpos

/-- C7 (amended): for every start, every nonzero width and every nonnegative
count, `linear_bucket` succeeds and returns exactly `count` integers
`start, start + width, start + 2 * width, ...`. -/
theorem linear_bucket_spec (start width count : Int)
    (hw : width ≠ 0) (hc : 0 ≤ count) :
    linear_bucket start width count =
      some ((List.range count.toNat).map (fun i : Nat => start + width * (i : Int))) ∧
    ∀ l, linear_bucket start width count = some l → l.length = count.toNat := by
  have h : linear_bucket start width count =
      some ((List.range count.toNat).map (fun i : Nat => start + width * (i : Int))) := by
    unfold linear_bucket pyRange
    rw [if_neg hw, pyRangeLen_mul start width count hw hc]
  refine ⟨h, ?_⟩
  intro l hl
  rw [h] at hl
  cases hl
  simp

/-- C7 counterexample: the claim quantifies over every width, but
`linear_bucket(100, 0, 5)` evaluates `range(100, 100, 0)`, and CPython's
`range` raises `ValueError` on a zero step — a failure mode, modelled as
`none`. -/
theorem linear_bucket_zero_width_counterexample :
    linear_bucket 100 0 5 = none := by decide

/-- Witness for `linear_bucket_spec`, at the spec's own example:
`linearBuckets(100, 100, 5) == [100, 200, 300, 400, 500]`. -/
theorem linear_bucket_spec_witness :
    linear_bucket 100 100 5 = some [100, 200, 300, 400, 500] := by
  have h := (linear_bucket_spec 100 100 5 (by decide) (by decide)).1
  rw [h]
  decide

/-- C8: both precomputed bucket sequences equal the concatenation of the four
5-element linear tiers, i.e. the explicit 20-element strictly increasing
integer sequence. -/
theorem buckets_spec :
    RESPONSE_BUCKETS =
      [100, 200, 300, 400, 500, 1000, 2000, 3000, 4000, 5000,
       10000, 20000, 30000, 40000, 50000,
       1000000, 1010000, 1020000, 1030000, 1040000] ∧
    REQUEST_BUCKETS =
      [100, 200, 300, 400, 500, 1000, 2000, 3000, 4000, 5000,
       10000, 20000, 30000, 40000, 50000,
       1000000, 1010000, 1020000, 1030000, 1040000] ∧
    RESPONSE_BUCKETS.length = 20 ∧ REQUEST_BUCKETS.length = 20 ∧
    List.Chain' (· < ·) RESPONSE_BUCKETS ∧ List.Chain' (· < ·) REQUEST_BUCKETS := by
  have h1 : RESPONSE_BUCKETS =
      [100, 200, 300, 400, 500, 1000, 2000, 3000, 4000, 5000,
       10000, 20000, 30000, 40000, 50000,
       1000000, 1010000, 1020000, 1030000, 1040000] := by decide
  have h2 : REQUEST_BUCKETS =
      [100, 200, 300, 400, 500, 1000, 2000, 3000, 4000, 5000,
       10000, 20000, 30000, 40000, 50000,
       1000000, 1010000, 1020000, 1030000, 1040000] := by decide
  refine ⟨h1, h2, by rw [h1]; rfl, by rw [h2]; rfl, ?_, ?_⟩
  · rw [h1]; norm_num [List.chain'_cons]
  · rw [h2]; norm_num [List.chain'_cons]

/-! ## Data model: requests, responses, per-request context, instruments -/

/-- The label values attached to one metric observation, as the (kwarg name,
value) pairs passed to prometheus_client's `.labels(...)`. -/
abbrev Labels := List (String × String)

/-- The part of a Quart request the module reads: `.path`, `.method`,
`.content_length` (`None` modelled as `none`). -/
structure PyRequest where
  path : String
  method : String
  content_length : Option Nat
deriving DecidableEq

/-- The part of a Quart response the module reads: `.status_code` and
`.content_length`. -/
structure PyResponse where
  status_code : Nat
  content_length : Option Nat
deriving DecidableEq

/-- The per-request context object `g`.  `start = some t` models
`hasattr(g, "start")` with `g.start = t`; instants are rationals. -/
structure GState where
  start : Option ℚ
deriving DecidableEq

/-- `_status_is_error`: a status code is an error iff it is at least 400. -/
def status_is_error (status_code : Nat) : Bool :=
  400 ≤ status_code

/-- Counter or Histogram (the two prometheus_client collector kinds used). -/
inductive MetricKind
  | counter
  | histogram
deriving DecidableEq

/-- One prometheus_client instrument together with its accumulated state:
`counts l` is the counter value for the label combination `l`, and `obs l`
is the list of observed histogram samples for `l`, most recent first.
`buckets = none` for counters and for the library-default histogram
buckets. -/
structure Metric where
  name : String
  help : String
  labelnames : List String
  kind : MetricKind
  buckets : Option (List Int)
  counts : Labels → Nat
  obs : Labels → List ℚ

/-- A freshly constructed `Counter(name, help, labelnames)`: no accumulated
values. -/
def mkCounter (name help : String) (labelnames : List String) : Metric :=
  { name := name, help := help, labelnames := labelnames, kind := .counter,
    buckets := none, counts := fun _ => 0, obs := fun _ => [] }

/-- A freshly constructed `Histogram(name, help, labelnames, buckets?)`: no
accumulated values. -/
def mkHistogram (name help : String) (labelnames : List String)
    (buckets : Option (List Int)) : Metric :=
  { name := name, help := help, labelnames := labelnames, kind := .histogram,
    buckets := buckets, counts := fun _ => 0, obs := fun _ => [] }

/-- The tuple of five collectors constructed inside `_register_collectors`,
in source order, for the given `self._custom_label_names`. -/
def buildCollectors (extra : List String) : List Metric :=
  [mkCounter "http_requests" "Total number of requests"
      (["method", "path", "status"] ++ extra),
   mkCounter "http_requests_errors" "Total number of error requests"
      (["method", "path", "status"] ++ extra),
   mkHistogram "http_request_duration_seconds"
      "The amount of time spent handling requests" (["path"] ++ extra) none,
   mkHistogram "http_request_size_bytes" "The size of requests"
      (["path"] ++ extra) (some REQUEST_BUCKETS),
   mkHistogram "http_response_size_bytes" "The size of responses"
      (["path"] ++ extra) (some RESPONSE_BUCKETS)]

/-- The mutable state of one `PrometheusRegistry` object plus the process-wide
`prometheus_client.REGISTRY` (modelled as the list of collector names
registered in it, in registration order). -/
structure RegistryState where
  collectors : List (String × Metric)
  custom_labeler : Option (PyRequest → Labels)
  custom_label_names : List String
  globalRegistry : List String

/-- `_register_collectors`: rebuilds `self._collectors` as the dict
`{c._name: c for c in (...)}`; constructing each prometheus_client collector
also auto-registers it into the process-wide `REGISTRY`. -/
def register_collectors (st : RegistryState) : RegistryState :=
  let ms := buildCollectors st.custom_label_names
  { st with collectors := ms.map (fun c => (c.name, c)),
            globalRegistry := st.globalRegistry ++ ms.map Metric.name }

/-- `PrometheusRegistry.__init__` (state part; `init_app` is host glue):
empty labeler state, then `_register_collectors`.  `reg` is whatever the
process-wide `REGISTRY` already holds. -/
def registryNew (reg : List String) : RegistryState :=
  register_collectors
    { collectors := [], custom_labeler := none, custom_label_names := [],
      globalRegistry := reg }

/-- `self._collectors[name]` — a Python dict lookup; `none` models the
`KeyError` that `get` logs and re-raises. -/
def RegistryState.get (st : RegistryState) (name : String) : Option Metric :=
  (st.collectors.find? (fun p => p.1 == name)).map Prod.snd

/-- `self._custom_labeler(request) if self._custom_labeler else {}`. -/
def labelsFor (st : RegistryState) (req : PyRequest) : Labels :=
  match st.custom_labeler with
  | some f => f req
  | none => []

/-- The instrument after `.labels(l).observe(v)`: one more sample `v`
recorded against the label combination `l`. -/
def obsUpdate (l : Labels) (v : ℚ) (m : Metric) : Metric :=
  { m with obs := fun l2 => if l2 = l then v :: m.obs l2 else m.obs l2 }

/-- The instrument after `.labels(l).inc()`: the counter for the label
combination `l` is one higher. -/
def cntUpdate (l : Labels) (m : Metric) : Metric :=
  { m with counts := fun l2 => if l2 = l then m.counts l2 + 1 else m.counts l2 }

/-- Apply `f` to the instrument stored under `name` (the dict value is an
alias of the instrument object, so mutating it mutates the dict entry in
place). -/
def updCol (name : String) (f : Metric → Metric)
    (cols : List (String × Metric)) : List (String × Metric) :=
  cols.map (fun p => if p.1 = name then (p.1, f p.2) else p)

/-- `self.get(name).labels(l).observe(v)` as a state transformer. -/
def observeOn (st : RegistryState) (name : String) (l : Labels) (v : ℚ) :
    RegistryState :=
  { st with collectors := updCol name (obsUpdate l v) st.collectors }

/-- `self.get(name).labels(l).inc()` as a state transformer. -/
def incOn (st : RegistryState) (name : String) (l : Labels) : RegistryState :=
  { st with collectors := updCol name (cntUpdate l) st.collectors }

/-- Read accessor for theorems: the counter value stored for `name` at the
label combination `l` (0 when the instrument does not exist — a fresh
counter child also reads 0). -/
def countOf (st : RegistryState) (name : String) (l : Labels) : Nat :=
  match st.get name with
  | some m => m.counts l
  | none => 0

/-- Read accessor for theorems: the samples observed for `name` at the label
combination `l`. -/
def obsOf (st : RegistryState) (name : String) (l : Labels) : List ℚ :=
  match st.get name with
  | some m => m.obs l
  | none => []

/-! ## Request lifecycle hooks -/

/-- The label kwargs `path=request.path, **labels` used by the three
histogram calls. -/
def pathLabels (st : RegistryState) (req : PyRequest) : Labels :=
  ("path", req.path) :: labelsFor st req

/-- The label kwargs
`method=request.method, path=request.path, status=response.status_code, **labels`
used by the two counter calls (prometheus_client stringifies label
values). -/
def requestLabels (st : RegistryState) (req : PyRequest) (resp : PyResponse) :
    Labels :=
  ("method", req.method) :: ("path", req.path) ::
    ("status", toString resp.status_code) :: labelsFor st req

/-- `start_request`: skip for "/metrics"; otherwise store `g.start = now`,
compute the extra labels and observe the request content length (default 0)
on `http_request_size_bytes`. -/
def start_request (st : RegistryState) (g : GState) (req : PyRequest)
    (now : ℚ) : RegistryState × GState :=
  if req.path = "/metrics" then (st, g)
  else
    (observeOn st "http_request_size_bytes" (pathLabels st req)
        ((req.content_length.getD 0 : Nat) : ℚ),
     { start := some now })

/-- `end_request`: skip for "/metrics" (returning the response); if `g` has
no start time, log a warning and return the response unobserved; otherwise
observe duration and response size, increment `http_requests`, and
additionally increment `http_requests_errors` when the status code is an
error.  Returns the response unchanged. -/
def end_request (st : RegistryState) (g : GState) (req : PyRequest)
    (resp : PyResponse) (now : ℚ) : RegistryState × PyResponse :=
  if req.path = "/metrics" then (st, resp)
  else
    match g.start with
    | none => (st, resp)
    | some start =>
      let endT := now - start
      let st1 := observeOn st "http_request_duration_seconds"
        (pathLabels st req) endT
      let st2 := observeOn st1 "http_response_size_bytes"
        (pathLabels st req) ((resp.content_length.getD 0 : Nat) : ℚ)
      let st3 := incOn st2 "http_requests" (requestLabels st req resp)
      let st4 := if status_is_error resp.status_code then
          incOn st3 "http_requests_errors" (requestLabels st req resp)
        else st3
      (st4, resp)

/-- The fault reaching the error hook: either a Quart `HTTPException`
(carrying `exc.get_response()`) or an arbitrary unstructured exception. -/
inductive PyExc
  | httpExc (response : PyResponse)
  | plain

/-- The synthetic response `abort_with_error` builds: the exception's own
response, or `Response("", 500)` (whose body is empty, so its content
length is 0). -/
def synthResponse (exc : PyExc) : PyResponse :=
  match exc with
  | .httpExc r => r
  | .plain => { status_code := 500, content_length := some 0 }

/-- `abort_with_error`: build the synthetic response and feed it through
`end_request`. -/
def abort_with_error (st : RegistryState) (g : GState) (req : PyRequest)
    (exc : PyExc) (now : ℚ) : RegistryState × PyResponse :=
  end_request st g req (synthResponse exc) now

/-- `custom_route_labeler`: install the labeler and its declared label
names, unregister every collector currently in `self._collectors` from the
process-wide `REGISTRY`, then `_register_collectors` again. -/
def custom_route_labeler (st : RegistryState) (labeler : PyRequest → Labels)
    (label_names : List String) : RegistryState :=
  let st1 := { st with custom_labeler := some labeler,
                       custom_label_names := label_names }
  let oldNames := st1.collectors.map Prod.fst
  let st2 := { st1 with
    globalRegistry := st1.globalRegistry.filter (fun n => !(oldNames.contains n)) }
  register_collectors st2

/-! ## Lemmas: dict lookup after an in-place instrument update -/

theorem find?_updCol (name name' : String) (f : Metric → Metric)
    (cols : List (String × Metric)) :
    (updCol name f cols).find? (fun p => p.1 == name') =
      (cols.find? (fun p => p.1 == name')).map
        (fun p => if p.1 = name then (p.1, f p.2) else p) := by
  induction cols with
  | nil => rfl
  | cons p t ih =>
    rcases p with ⟨k, m⟩
    have hhead : updCol name f ((k, m) :: t) =
        (if k = name then (k, f m) else (k, m)) :: updCol name f t := by
      by_cases hn : k = name <;> simp [updCol, hn]
    rw [hhead]
    by_cases hk : k = name'
    · subst hk
      have h1 : ((if k = name then (k, f m) else (k, m)).1 == k) = true := by
        by_cases hn : k = name <;> simp [hn]
      have h2 : ((((k, m) : String × Metric)).1 == k) = true := by simp
      rw [@List.find?_cons_of_pos _ (fun p => p.1 == k)
            (if k = name then (k, f m) else (k, m)) (updCol name f t) h1,
          @List.find?_cons_of_pos _ (fun p => p.1 == k) (k, m) t h2]
      by_cases hn : k = name <;> simp [hn]
    · have h1 : ¬ ((if k = name then (k, f m) else (k, m)).1 == name') = true := by
        by_cases hn : k = name
        · subst hn; simp [hk]
        · simp [hn, hk]
      have h2 : ¬ ((((k, m) : String × Metric)).1 == name') = true := by simp [hk]
      rw [@List.find?_cons_of_neg _ (fun p => p.1 == name')
            (if k = name then (k, f m) else (k, m)) (updCol name f t) h1,
          @List.find?_cons_of_neg _ (fun p => p.1 == name') (k, m) t h2, ih]

theorem map_snd_find?_updCol (name name' : String) (f : Metric → Metric)
    (cols : List (String × Metric)) :
    ((updCol name f cols).find? (fun p => p.1 == name')).map Prod.snd =
      ((cols.find? (fun p => p.1 == name')).map Prod.snd).map
        (fun m => if name' = name then f m else m) := by
  rw [find?_updCol]
  cases hfind : cols.find? (fun p => p.1 == name') with
  | none => rfl
  | some p =>
    have hp : p.1 = name' := by simpa using List.find?_some hfind
    subst hp
    by_cases h : p.1 = name <;> simp [h]

theorem get_observeOn (st : RegistryState) (name name' : String) (l : Labels)
    (v : ℚ) :
    (observeOn st name l v).get name' =
      (st.get name').map (fun m => if name' = name then obsUpdate l v m else m) :=
  map_snd_find?_updCol name name' (obsUpdate l v) st.collectors

theorem get_incOn (st : RegistryState) (name name' : String) (l : Labels) :
    (incOn st name l).get name' =
      (st.get name').map (fun m => if name' = name then cntUpdate l m else m) :=
  map_snd_find?_updCol name name' (cntUpdate l) st.collectors

theorem isSome_get_observeOn (st : RegistryState) (name name' : String)
    (l : Labels) (v : ℚ) :
    ((observeOn st name l v).get name').isSome = (st.get name').isSome := by
  rw [get_observeOn]
  cases st.get name' <;> rfl

theorem isSome_get_incOn (st : RegistryState) (name name' : String)
    (l : Labels) :
    ((incOn st name l).get name').isSome = (st.get name').isSome := by
  rw [get_incOn]
  cases st.get name' <;> rfl

theorem countOf_observeOn (st : RegistryState) (name name' : String)
    (l : Labels) (v : ℚ) (l' : Labels) :
    countOf (observeOn st name l v) name' l' = countOf st name' l' := by
  unfold countOf
  rw [get_observeOn]
  cases st.get name' with
  | none => rfl
  | some m => by_cases h : name' = name <;> simp [h, obsUpdate]

theorem obsOf_incOn (st : RegistryState) (name name' : String) (l : Labels)
    (l' : Labels) :
    obsOf (incOn st name l) name' l' = obsOf st name' l' := by
  unfold obsOf
  rw [get_incOn]
  cases st.get name' with
  | none => rfl
  | some m => by_cases h : name' = name <;> simp [h, cntUpdate]

theorem countOf_incOn_ne (st : RegistryState) (name name' : String)
    (l : Labels) (l' : Labels) (h : name' ≠ name) :
    countOf (incOn st name l) name' l' = countOf st name' l' := by
  unfold countOf
  rw [get_incOn]
  cases st.get name' with
  | none => rfl
  | some m => simp [h]

theorem countOf_incOn_self (st : RegistryState) (name : String) (l : Labels)
    (l' : Labels) (h : (st.get name).isSome = true) :
    countOf (incOn st name l) name l' =
      if l' = l then countOf st name l' + 1 else countOf st name l' := by
  unfold countOf
  rw [get_incOn]
  cases hm : st.get name with
  | none => rw [hm] at h; simp at h
  | some m => by_cases hl : l' = l <;> simp [hl, cntUpdate]

theorem obsOf_observeOn_ne (st : RegistryState) (name name' : String)
    (l : Labels) (v : ℚ) (l' : Labels) (h : name' ≠ name) :
    obsOf (observeOn st name l v) name' l' = obsOf st name' l' := by
  unfold obsOf
  rw [get_observeOn]
  cases st.get name' with
  | none => rfl
  | some m => simp [h]

theorem obsOf_observeOn_self (st : RegistryState) (name : String) (l : Labels)
    (v : ℚ) (l' : Labels) (h : (st.get name).isSome = true) :
    obsOf (observeOn st name l v) name l' =
      if l' = l then v :: obsOf st name l' else obsOf st name l' := by
  unfold obsOf
  rw [get_observeOn]
  cases hm : st.get name with
  | none => rw [hm] at h; simp at h
  | some m => by_cases hl : l' = l <;> simp [hl, obsUpdate]

/-- Full effect of `end_request` on an instrumented (non-exposition) request
whose timing state is present: the helper behind the C1 and C2 claims. -/
theorem end_request_run (st : RegistryState) (g : GState) (req : PyRequest)
    (resp : PyResponse) (now s : ℚ)
    (hpath : ¬ req.path = "/metrics") (hstart : g.start = some s)
    (hdur : (st.get "http_request_duration_seconds").isSome = true)
    (hrsz : (st.get "http_response_size_bytes").isSome = true)
    (hreq : (st.get "http_requests").isSome = true)
    (herr : (st.get "http_requests_errors").isSome = true) :
    (end_request st g req resp now).2 = resp ∧
    obsOf (end_request st g req resp now).1 "http_request_duration_seconds"
        (pathLabels st req)
      = (now - s) :: obsOf st "http_request_duration_seconds" (pathLabels st req) ∧
    obsOf (end_request st g req resp now).1 "http_response_size_bytes"
        (pathLabels st req)
      = ((resp.content_length.getD 0 : Nat) : ℚ)
          :: obsOf st "http_response_size_bytes" (pathLabels st req) ∧
    (∀ l, countOf (end_request st g req resp now).1 "http_requests" l
      = countOf st "http_requests" l
          + (if l = requestLabels st req resp then 1 else 0)) ∧
    (∀ l, countOf (end_request st g req resp now).1 "http_requests_errors" l
      = countOf st "http_requests_errors" l
          + (if 400 ≤ resp.status_code ∧ l = requestLabels st req resp
             then 1 else 0)) := by
  rcases g with ⟨gs⟩
  obtain rfl : gs = some s := hstart
  have he : end_request st ⟨some s⟩ req resp now =
      ((if status_is_error resp.status_code then
          incOn (incOn (observeOn (observeOn st "http_request_duration_seconds"
              (pathLabels st req) (now - s))
            "http_response_size_bytes" (pathLabels st req)
            ((resp.content_length.getD 0 : Nat) : ℚ))
            "http_requests" (requestLabels st req resp))
            "http_requests_errors" (requestLabels st req resp)
        else
          incOn (observeOn (observeOn st "http_request_duration_seconds"
              (pathLabels st req) (now - s))
            "http_response_size_bytes" (pathLabels st req)
            ((resp.content_length.getD 0 : Nat) : ℚ))
            "http_requests" (requestLabels st req resp)), resp) := by
    unfold end_request
    rw [if_neg hpath]
  by_cases h400 : status_is_error resp.status_code = true
  · have h400' : 400 ≤ resp.status_code := by
      simpa [status_is_error] using h400
    rw [if_pos h400] at he
    simp only [he]
    refine ⟨trivial, ?_, ?_, ?_, ?_⟩
    · rw [obsOf_incOn, obsOf_incOn,
        obsOf_observeOn_ne _ _ _ _ _ _ (by decide),
        obsOf_observeOn_self _ _ _ _ _ hdur, if_pos rfl]
    · rw [obsOf_incOn, obsOf_incOn,
        obsOf_observeOn_self _ _ _ _ _
          (by rw [isSome_get_observeOn]; exact hrsz),
        obsOf_observeOn_ne _ _ _ _ _ _ (by decide), if_pos rfl]
    · intro l
      rw [countOf_incOn_ne _ _ _ _ _ (by decide),
        countOf_incOn_self _ _ _ _
          (by rw [isSome_get_observeOn, isSome_get_observeOn]; exact hreq)]
      simp only [countOf_observeOn]
      by_cases hl : l = requestLabels st req resp <;> simp [hl]
    · intro l
      rw [countOf_incOn_self _ _ _ _
          (by rw [isSome_get_incOn, isSome_get_observeOn, isSome_get_observeOn]
              exact herr),
        countOf_incOn_ne _ _ _ _ _ (by decide)]
      simp only [countOf_observeOn]
      by_cases hl : l = requestLabels st req resp <;> simp [hl, h400']
  · have h400' : ¬ 400 ≤ resp.status_code := by
      simpa [status_is_error] using h400
    rw [if_neg h400] at he
    simp only [he]
    refine ⟨trivial, ?_, ?_, ?_, ?_⟩
    · rw [obsOf_incOn,
        obsOf_observeOn_ne _ _ _ _ _ _ (by decide),
        obsOf_observeOn_self _ _ _ _ _ hdur, if_pos rfl]
    · rw [obsOf_incOn,
        obsOf_observeOn_self _ _ _ _ _
          (by rw [isSome_get_observeOn]; exact hrsz),
        obsOf_observeOn_ne _ _ _ _ _ _ (by decide), if_pos rfl]
    · intro l
      rw [countOf_incOn_self _ _ _ _
          (by rw [isSome_get_observeOn, isSome_get_observeOn]; exact hreq)]
      simp only [countOf_observeOn]
      by_cases hl : l = requestLabels st req resp <;> simp [hl]
    · intro l
      rw [countOf_incOn_ne _ _ _ _ _ (by decide)]
      simp only [countOf_observeOn]
      simp [h400']

/-- C1: for every request off the exposition path whose timing state is
present, `end_request` observes `http_request_duration_seconds` with
now − start, observes `http_response_size_bytes` with the response content
length (0 when absent), increments `http_requests` at
{method, path, status, extra labels} by exactly 1 (all other label
combinations untouched), increments `http_requests_errors` at the same
labels by exactly 1 iff the status code is ≥ 400, and returns the response
unchanged. -/
theorem end_request_spec (st : RegistryState) (g : GState) (req : PyRequest)
    (resp : PyResponse) (now s : ℚ)
    (hpath : ¬ req.path = "/metrics") (hstart : g.start = some s)
    (hdur : (st.get "http_request_duration_seconds").isSome = true)
    (hrsz : (st.get "http_response_size_bytes").isSome = true)
    (hreq : (st.get "http_requests").isSome = true)
    (herr : (st.get "http_requests_errors").isSome = true) :
    (end_request st g req resp now).2 = resp ∧
    obsOf (end_request st g req resp now).1 "http_request_duration_seconds"
        (pathLabels st req)
      = (now - s) :: obsOf st "http_request_duration_seconds" (pathLabels st req) ∧
    obsOf (end_request st g req resp now).1 "http_response_size_bytes"
        (pathLabels st req)
      = ((resp.content_length.getD 0 : Nat) : ℚ)
          :: obsOf st "http_response_size_bytes" (pathLabels st req) ∧
    (∀ l, countOf (end_request st g req resp now).1 "http_requests" l
      = countOf st "http_requests" l
          + (if l = requestLabels st req resp then 1 else 0)) ∧
    (∀ l, countOf (end_request st g req resp now).1 "http_requests_errors" l
      = countOf st "http_requests_errors" l
          + (if 400 ≤ resp.status_code ∧ l = requestLabels st req resp
             then 1 else 0)) :=
  end_request_run st g req resp now s hpath hstart hdur hrsz hreq herr

/-- Witness for `end_request_spec`: one GET request to "/x" answered with
status 404 on the freshly constructed registry. -/
theorem end_request_spec_witness :
    (end_request (registryNew []) ⟨some 2⟩ ⟨"/x", "GET", some 5⟩
        ⟨404, some 7⟩ 3).2 = ⟨404, some 7⟩ ∧
    countOf (end_request (registryNew []) ⟨some 2⟩ ⟨"/x", "GET", some 5⟩
          ⟨404, some 7⟩ 3).1 "http_requests"
        (requestLabels (registryNew []) ⟨"/x", "GET", some 5⟩ ⟨404, some 7⟩)
      = countOf (registryNew []) "http_requests"
          (requestLabels (registryNew []) ⟨"/x", "GET", some 5⟩ ⟨404, some 7⟩)
          + 1 ∧
    countOf (end_request (registryNew []) ⟨some 2⟩ ⟨"/x", "GET", some 5⟩
          ⟨404, some 7⟩ 3).1 "http_requests_errors"
        (requestLabels (registryNew []) ⟨"/x", "GET", some 5⟩ ⟨404, some 7⟩)
      = countOf (registryNew []) "http_requests_errors"
          (requestLabels (registryNew []) ⟨"/x", "GET", some 5⟩ ⟨404, some 7⟩)
          + 1 := by
  have h := end_request_spec (registryNew []) ⟨some 2⟩ ⟨"/x", "GET", some 5⟩
    ⟨404, some 7⟩ 3 2 (by decide) rfl (by decide) (by decide) (by decide)
    (by decide)
  refine ⟨h.1, ?_, ?_⟩
  · have h4 := h.2.2.2.1
      (requestLabels (registryNew []) ⟨"/x", "GET", some 5⟩ ⟨404, some 7⟩)
    simpa using h4
  · have h5 := h.2.2.2.2
      (requestLabels (registryNew []) ⟨"/x", "GET", some 5⟩ ⟨404, some 7⟩)
    simpa using h5

/-- C2: the error hook feeds the exception's own response (HTTP exceptions)
or a synthetic status-500 response (arbitrary faults) through the very same
`end_request` logic; for an unstructured fault this yields exactly one
increment of `http_requests` at the status-500 labels and exactly one
increment of `http_requests_errors` there, all other label combinations
untouched — the request is observed exactly once. -/
theorem abort_with_error_spec (st : RegistryState) (g : GState)
    (req : PyRequest) (now s : ℚ)
    (hpath : ¬ req.path = "/metrics") (hstart : g.start = some s)
    (hdur : (st.get "http_request_duration_seconds").isSome = true)
    (hrsz : (st.get "http_response_size_bytes").isSome = true)
    (hreq : (st.get "http_requests").isSome = true)
    (herr : (st.get "http_requests_errors").isSome = true) :
    (∀ r, abort_with_error st g req (.httpExc r) now = end_request st g req r now) ∧
    (abort_with_error st g req .plain now).2.status_code = 500 ∧
    (∀ l, countOf (abort_with_error st g req .plain now).1 "http_requests" l
      = countOf st "http_requests" l
          + (if l = requestLabels st req ⟨500, some 0⟩ then 1 else 0)) ∧
    (∀ l, countOf (abort_with_error st g req .plain now).1 "http_requests_errors" l
      = countOf st "http_requests_errors" l
          + (if l = requestLabels st req ⟨500, some 0⟩ then 1 else 0)) := by
  have h := end_request_run st g req ⟨500, some 0⟩ now s hpath hstart
    hdur hrsz hreq herr
  refine ⟨fun r => rfl, ?_, fun l => h.2.2.2.1 l, fun l => ?_⟩
  · show (end_request st g req ⟨500, some 0⟩ now).2.status_code = 500
    rw [h.1]
  · have h5 := h.2.2.2.2 l
    simpa using h5

/-- Witness for `abort_with_error_spec`: an unstructured fault during a POST
to "/y" on the freshly constructed registry. -/
theorem abort_with_error_spec_witness :
    (abort_with_error (registryNew []) ⟨some 0⟩ ⟨"/y", "POST", none⟩
        PyExc.plain 1).2.status_code = 500 ∧
    countOf (abort_with_error (registryNew []) ⟨some 0⟩ ⟨"/y", "POST", none⟩
          PyExc.plain 1).1 "http_requests"
        (requestLabels (registryNew []) ⟨"/y", "POST", none⟩ ⟨500, some 0⟩)
      = countOf (registryNew []) "http_requests"
          (requestLabels (registryNew []) ⟨"/y", "POST", none⟩ ⟨500, some 0⟩)
          + 1 ∧
    countOf (abort_with_error (registryNew []) ⟨some 0⟩ ⟨"/y", "POST", none⟩
          PyExc.plain 1).1 "http_requests_errors"
        (requestLabels (registryNew []) ⟨"/y", "POST", none⟩ ⟨500, some 0⟩)
      = countOf (registryNew []) "http_requests_errors"
          (requestLabels (registryNew []) ⟨"/y", "POST", none⟩ ⟨500, some 0⟩)
          + 1 := by
  have h := abort_with_error_spec (registryNew []) ⟨some 0⟩
    ⟨"/y", "POST", none⟩ 1 0 (by decide) rfl (by decide) (by decide)
    (by decide) (by decide)
  refine ⟨h.1 ⟨500, some 0⟩ ▸ h.2.1, ?_, ?_⟩
  · have h3 := h.2.2.1
      (requestLabels (registryNew []) ⟨"/y", "POST", none⟩ ⟨500, some 0⟩)
    simpa using h3
  · have h4 := h.2.2.2
      (requestLabels (registryNew []) ⟨"/y", "POST", none⟩ ⟨500, some 0⟩)
    simpa using h4

/-- C3: for a request to the exposition path "/metrics", both hooks leave the
entire registry state — hence every instrument's accumulated values —
unchanged, and the after-response hook returns the response unchanged. -/
theorem metrics_path_spec (st : RegistryState) (g : GState) (req : PyRequest)
    (resp : PyResponse) (now : ℚ) (hpath : req.path = "/metrics") :
    start_request st g req now = (st, g) ∧
    end_request st g req resp now = (st, resp) := by
  constructor
  · unfold start_request
    rw [if_pos hpath]
  · unfold end_request
    rw [if_pos hpath]

/-- Witness for `metrics_path_spec`: a GET of "/metrics" on the freshly
constructed registry. -/
theorem metrics_path_spec_witness :
    start_request (registryNew []) ⟨none⟩ ⟨"/metrics", "GET", none⟩ 0
      = (registryNew [], ⟨none⟩) ∧
    end_request (registryNew []) ⟨none⟩ ⟨"/metrics", "GET", none⟩
        ⟨200, none⟩ 0 = (registryNew [], ⟨200, none⟩) :=
  metrics_path_spec (registryNew []) ⟨none⟩ ⟨"/metrics", "GET", none⟩
    ⟨200, none⟩ 0 rfl

/-- C6: off the exposition path, when no timing state is present,
`end_request` performs no observation or increment (the state is returned
unchanged), returns the response unchanged, and — being a total function of
its inputs — never raises. -/
theorem end_request_no_start_spec (st : RegistryState) (g : GState)
    (req : PyRequest) (resp : PyResponse) (now : ℚ)
    (hpath : ¬ req.path = "/metrics") (hstart : g.start = none) :
    end_request st g req resp now = (st, resp) := by
  rcases g with ⟨gs⟩
  obtain rfl : gs = none := hstart
  unfold end_request
  rw [if_neg hpath]

/-- Witness for `end_request_no_start_spec`: a request to "/z" whose start
hook never ran. -/
theorem end_request_no_start_spec_witness :
    end_request (registryNew []) ⟨none⟩ ⟨"/z", "GET", none⟩ ⟨200, some 3⟩ 5
      = (registryNew [], ⟨200, some 3⟩) :=
  end_request_no_start_spec (registryNew []) ⟨none⟩ ⟨"/z", "GET", none⟩
    ⟨200, some 3⟩ 5 (by decide) rfl

/-- C5: `buildCollectors` creates exactly five instruments with pairwise
distinct names; the two counters carry [method, path, status] followed by
the extra names, the three histograms carry [path] followed by the extra
names. -/
theorem build_collectors_spec (extra : List String) :
    (buildCollectors extra).length = 5 ∧
    (buildCollectors extra).map Metric.name =
      ["http_requests", "http_requests_errors", "http_request_duration_seconds",
       "http_request_size_bytes", "http_response_size_bytes"] ∧
    ((buildCollectors extra).map Metric.name).Nodup ∧
    (buildCollectors extra).map Metric.kind =
      [MetricKind.counter, MetricKind.counter, MetricKind.histogram,
       MetricKind.histogram, MetricKind.histogram] ∧
    (buildCollectors extra).map Metric.labelnames =
      [["method", "path", "status"] ++ extra,
       ["method", "path", "status"] ++ extra,
       ["path"] ++ extra, ["path"] ++ extra, ["path"] ++ extra] := by
  refine ⟨rfl, rfl, ?_, rfl, rfl⟩
  have hn : (buildCollectors extra).map Metric.name =
      ["http_requests", "http_requests_errors", "http_request_duration_seconds",
       "http_request_size_bytes", "http_response_size_bytes"] := rfl
  rw [hn]
  decide

/-- C10: at construction and after every `custom_route_labeler` call, the
collector dict's key list is exactly the five metric names and every key
maps to the instrument whose own name is that key. -/
theorem collectors_invariant_spec (reg : List String) (st : RegistryState)
    (fn : PyRequest → Labels) (L : List String) :
    ((registryNew reg).collectors.map Prod.fst =
       ["http_requests", "http_requests_errors", "http_request_duration_seconds",
        "http_request_size_bytes", "http_response_size_bytes"] ∧
     ∀ p ∈ (registryNew reg).collectors, p.2.name = p.1) ∧
    ((custom_route_labeler st fn L).collectors.map Prod.fst =
       ["http_requests", "http_requests_errors", "http_request_duration_seconds",
        "http_request_size_bytes", "http_response_size_bytes"] ∧
     ∀ p ∈ (custom_route_labeler st fn L).collectors, p.2.name = p.1) := by
  refine ⟨⟨rfl, ?_⟩, ⟨rfl, ?_⟩⟩
  · intro p hp
    simp only [registryNew, register_collectors, List.mem_map] at hp
    obtain ⟨c, hc, rfl⟩ := hp
    rfl
  · intro p hp
    simp only [custom_route_labeler, register_collectors, List.mem_map] at hp
    obtain ⟨c, hc, rfl⟩ := hp
    rfl

/-- Witness for `collectors_invariant_spec`: the key list of the freshly
constructed registry, and after one labeler installation. -/
theorem collectors_invariant_spec_witness :
    (registryNew []).collectors.map Prod.fst =
      ["http_requests", "http_requests_errors", "http_request_duration_seconds",
       "http_request_size_bytes", "http_response_size_bytes"] ∧
    (custom_route_labeler (registryNew []) (fun _ => [("tenant", "t1")])
        ["tenant"]).collectors.map Prod.fst =
      ["http_requests", "http_requests_errors", "http_request_duration_seconds",
       "http_request_size_bytes", "http_response_size_bytes"] :=
  ⟨(collectors_invariant_spec [] (registryNew [])
      (fun _ => [("tenant", "t1")]) ["tenant"]).1.1,
   (collectors_invariant_spec [] (registryNew [])
      (fun _ => [("tenant", "t1")]) ["tenant"]).2.1⟩

/-- C9: `get` on a registered name returns exactly the instrument stored
under that name; on an absent name it fails with a lookup error (the
`KeyError`, modelled as `none`) — and, being a pure read of the state, it
modifies nothing and does not crash the process. -/
theorem get_spec (st : RegistryState) (name : String) :
    (∀ m, st.get name = some m → (name, m) ∈ st.collectors) ∧
    (st.get name = none ↔ name ∉ st.collectors.map Prod.fst) := by
  constructor
  · intro m hm
    unfold RegistryState.get at hm
    cases hfind : st.collectors.find? (fun p => p.1 == name) with
    | none => rw [hfind] at hm; cases hm
    | some p =>
      rw [hfind] at hm
      simp only [Option.map_some'] at hm
      obtain rfl : p.2 = m := by injection hm
      have hp : p.1 = name := by simpa using List.find?_some hfind
      have hmem := List.mem_of_find?_eq_some hfind
      rw [← hp]
      rw [Prod.mk.eta]
      exact hmem
  · unfold RegistryState.get
    rw [Option.map_eq_none', List.find?_eq_none]
    constructor
    · intro h hmem
      rw [List.mem_map] at hmem
      obtain ⟨p, hp, hpe⟩ := hmem
      exact h p hp (by simp [hpe])
    · intro h p hp
      simp only [beq_iff_eq]
      intro he
      exact h (List.mem_map.mpr ⟨p, hp, he⟩)

/-- Witness for `get_spec`: on the fresh registry, `get "does_not_exist"`
fails and `get "http_requests"` returns the stored counter. -/
theorem get_spec_witness :
    (registryNew []).get "does_not_exist" = none ∧
    ("http_requests", mkCounter "http_requests" "Total number of requests"
        ["method", "path", "status"]) ∈ (registryNew []).collectors := by
  constructor
  · exact (get_spec (registryNew []) "does_not_exist").2.mpr (by decide)
  · exact (get_spec (registryNew []) "http_requests").1 _ rfl

/-- C4: `custom_route_labeler` installs the strategy and its declared names,
removes exactly the previous collector set from the process-wide registry
(rebuilding it with the new instruments), and afterwards every instrument's
label-name list includes every declared name and all accumulated values are
reset to zero. -/
theorem custom_route_labeler_spec (st : RegistryState)
    (fn : PyRequest → Labels) (L : List String) :
    (custom_route_labeler st fn L).custom_labeler = some fn ∧
    (custom_route_labeler st fn L).custom_label_names = L ∧
    (∀ n, n ∈ (custom_route_labeler st fn L).globalRegistry ↔
      ((n ∈ st.globalRegistry ∧ n ∉ st.collectors.map Prod.fst) ∨
        n ∈ (buildCollectors L).map Metric.name)) ∧
    (∀ p ∈ (custom_route_labeler st fn L).collectors,
      (∀ x ∈ L, x ∈ p.2.labelnames) ∧
      (∀ l, p.2.counts l = 0 ∧ p.2.obs l = [])) := by
  refine ⟨rfl, rfl, ?_, ?_⟩
  · intro n
    simp only [custom_route_labeler, register_collectors]
    rw [List.mem_append, List.mem_filter]
    simp
  · intro p hp
    simp only [custom_route_labeler, register_collectors, List.mem_map] at hp
    obtain ⟨c, hc, rfl⟩ := hp
    simp only [buildCollectors, List.mem_cons, List.not_mem_nil, or_false] at hc
    rcases hc with rfl | rfl | rfl | rfl | rfl <;>
      exact ⟨fun x hx => by simp [mkCounter, mkHistogram, hx],
             fun l => ⟨rfl, rfl⟩⟩

/-- Witness for `custom_route_labeler_spec`: installing a "tenant" labeler on
the fresh registry declares the name, and the rebuilt `http_requests`
counter carries the "tenant" label with its value reset to zero. -/
theorem custom_route_labeler_spec_witness :
    (custom_route_labeler (registryNew []) (fun _ => [("tenant", "t1")])
        ["tenant"]).custom_label_names = ["tenant"] ∧
    "tenant" ∈ (mkCounter "http_requests" "Total number of requests"
        (["method", "path", "status"] ++ ["tenant"])).labelnames ∧
    (mkCounter "http_requests" "Total number of requests"
        (["method", "path", "status"] ++ ["tenant"])).counts [] = 0 := by
  have h := custom_route_labeler_spec (registryNew [])
    (fun _ => [("tenant", "t1")]) ["tenant"]
  have hp : ("http_requests", mkCounter "http_requests"
        "Total number of requests" (["method", "path", "status"] ++ ["tenant"]))
      ∈ (custom_route_labeler (registryNew []) (fun _ => [("tenant", "t1")])
        ["tenant"]).collectors := List.Mem.head _
  have h4 := h.2.2.2 _ hp
  exact ⟨h.2.1, h4.1 "tenant" (by decide), (h4.2 []).1⟩
